import Mathlib

/-
Shallow embedding of `src/tf/edgeml/trainer/emirnnTrainer.py` (class
`EMI_RNNTrainer`).

Modelling decisions:
* TensorFlow graph nodes are modelled symbolically by the inductive type
  `TFNode`: the trainer only ever builds and hands around such nodes, it
  never evaluates them, so the graph-construction behaviour of the class is
  fully captured by the shape of the symbolic terms it produces.
* Python exceptions are modelled by `Except PyError`.  `assert c` is
  `pyAssert c msg`; out-of-range tuple/array indexing (`shape[i]`,
  `lossIndicator[i, 0]`) raises `PyError.indexError`, as it does in
  Python/numpy/TensorFlow.
* The mutable object `self` is threaded explicitly: each method returns the
  updated `Trainer` (reflecting exactly the attribute writes executed before
  any exception) together with its `Except` result.  The TensorFlow global
  collection state (`tf.add_to_collection`) is threaded as `TFState`.
* `lossIndicator` is a numpy array; its integer entries are kept as `Int`
  (`astype('float32')` maps small integers to floats exactly and is modelled
  as the identity on the data).  A numpy 2-d array is rectangular; the
  predicate `NDArray.rect` states this for the list-of-rows representation.
* `trainModel` interacts with an external session only through `sess.run`,
  which either succeeds, raises `tf.errors.OutOfRangeError`, or raises some
  other exception.  A session is therefore modelled as the finite schedule
  of outcomes of its successive `run` calls (`List RunResult`); an
  exhausted schedule (`TrainOutcome.noMoreResults`) corresponds to a run of
  the loop that has not yet terminated.
-/

namespace EMIRNN

/-- A pre-built tensorflow tensor handed to the trainer: all the trainer
inspects is its shape; the node itself stays symbolic. -/
structure TFTensor where
  name : String
  shape : List Nat
deriving DecidableEq

/-- A numpy array as used for `lossIndicator`: its reported `ndim` plus the
rows of data (meaningful when `ndim = 2`). -/
structure NDArray where
  ndim : Nat
  data : List (List Int)
deriving DecidableEq

/-- Rectangularity of a numpy 2-d array in the list-of-rows representation:
every row has the length of the first row. -/
def NDArray.rect (a : NDArray) : Prop :=
  ∀ row ∈ a.data, row.length = (a.data.headD []).length

instance (a : NDArray) : Decidable a.rect := by
  unfold NDArray.rect; infer_instance

/-- Python exceptions that the embedded code can raise. -/
inductive PyError where
  | assertionError (msg : Option String)
  | indexError
  | attributeError (name : String)
  | unboundLocalError (name : String)
  | typeError
deriving DecidableEq

/-- Symbolic TensorFlow graph nodes, one constructor per tf operation the
trainer builds. -/
inductive TFNode where
  | atom (t : TFTensor)
  | tfVariable (name : String) (value : List (List Int))
  | expandDims (x : TFNode) (axis : Nat)
  | tile (x : TFNode) (multiples : List Int)
  | reshape (x : TFNode) (shape : List Int)
  | sub (a b : TFNode)
  | mul (a b : TFNode)
  | sliceFrom (x : TFNode) (idx : Int)
  | softmaxCE (labels logits : TFNode)
  | reduceMean (x : TFNode) (name : String)
  | l2Loss (x : TFNode) (name : String)
  | adamMinimize (stepSize : Rat) (loss : TFNode)
deriving DecidableEq

/-- The state of an `EMI_RNNTrainer` object: its constructor arguments plus
the mutable attributes set in `__init__`. -/
structure Trainer where
  numTimeSteps : Nat
  numOutput : Nat
  graph : Option Unit
  stepSize : Rat
  lossType : String
  optimizer : String
  automode : Bool
  validInit : Bool
  graphCreated : Bool
  lossOp : Option TFNode
  trainOp : Option TFNode
  lossIndicatorTensor : Option TFNode
deriving DecidableEq

/-- The tensorflow global collection state touched by
`tf.add_to_collection`. -/
structure TFState where
  collections : List (String × Option TFNode)
deriving DecidableEq

instance exceptDecEq {ε α : Type} [DecidableEq ε] [DecidableEq α] :
    DecidableEq (Except ε α) := fun x y =>
  match x, y with
  | .ok a, .ok b => decidable_of_iff (a = b) (by simp)
  | .error a, .error b => decidable_of_iff (a = b) (by simp)
  | .ok _, .error _ => isFalse (by simp)
  | .error _, .ok _ => isFalse (by simp)

/-- Python `assert b` / `assert b, msg`. -/
def pyAssert (b : Bool) (msg : Option String) : Except PyError Unit :=
  if b then .ok () else .error (.assertionError msg)

def supportedLosses : List String := ["xentropy", "l2"]

def supportedOptimizers : List String := ["Adam"]

/-- `EMI_RNNTrainer.__init__`: all attributes are assigned, then the two
`assert`s run; if one fails the object is never produced. -/
def initTrainer (numTimeSteps numOutput : Nat) (graph : Option Unit)
    (stepSize : Rat) (lossType optimizer : String) (automode : Bool) :
    Except PyError Trainer := do
  let t : Trainer :=
    { numTimeSteps := numTimeSteps, numOutput := numOutput, graph := graph,
      stepSize := stepSize, lossType := lossType, optimizer := optimizer,
      automode := automode, validInit := false, graphCreated := false,
      lossOp := none, trainOp := none, lossIndicatorTensor := none }
  pyAssert (supportedLosses.contains lossType) none
  pyAssert (supportedOptimizers.contains optimizer) none
  pure t

/-- Python tuple indexing `shape[i]`: out of range raises `IndexError`. -/
def shapeGet (s : List Nat) (i : Nat) : Except PyError Nat :=
  match s.get? i with
  | some v => .ok v
  | none => .error .indexError

/-- The loop body of `__findIndicatorStart`: scan the rows, return the
first index whose column 0 holds `1`, else `-1`; reading column 0 of an
empty row (a 2-d array with zero columns) raises `IndexError`. -/
def findRow : List (List Int) → Nat → Except PyError Int
  | [], _ => .ok (-1)
  | row :: rest, i =>
    match row.head? with
    | none => .error .indexError
    | some v => if v = 1 then .ok (Int.ofNat i) else findRow rest (i + 1)

/-- `EMI_RNNTrainer.__findIndicatorStart`. -/
def findIndicatorStart (li : NDArray) : Except PyError Int := do
  pyAssert (li.ndim == 2) none
  findRow li.data 0

/-- `np.sum` over a slice of rows. -/
def npSum2 (rows : List (List Int)) : Int :=
  (rows.map List.sum).sum

def msgDim : String := "Predicted/Target tensors have incorrect dimension"

def msgInd : String := "Invalid lossIndicator passed"

/-- The six predicted/target shape assertions at the start of
`__validateInit`. -/
def shapeChecks (t : Trainer) (predShape targetShape : List Nat) :
    Except PyError Unit := do
  pyAssert (predShape.length == 4) (some msgDim)
  let p3 ← shapeGet predShape 3
  pyAssert (p3 == t.numOutput) (some msgDim)
  let p2 ← shapeGet predShape 2
  pyAssert (p2 == t.numTimeSteps) (some msgDim)
  let p1 ← shapeGet predShape 1
  let g1 ← shapeGet targetShape 1
  pyAssert (p1 == g1) (some msgDim)
  pyAssert (targetShape.length == 3) none
  let g2 ← shapeGet targetShape 2
  pyAssert (g2 == t.numOutput) none

/-- The `lossIndicator` assertions in the second half of `__validateInit`. -/
def indicatorChecks (t : Trainer) (li : NDArray) : Except PyError Unit := do
  pyAssert (li.ndim == 2) (some msgInd)
  let idx ← findIndicatorStart li
  pyAssert (decide (0 ≤ idx)) (some msgInd)
  pyAssert (npSum2 (li.data.take idx.toNat) == 0) (some msgInd)
  let expected : Int := ((li.data.length : Int) - idx) * (t.numOutput : Int)
  pyAssert (npSum2 (li.data.drop idx.toNat) == expected) (some msgInd)

/-- All assertions of `__validateInit`, in source order. -/
def validateChecks (t : Trainer) (predShape targetShape : List Nat)
    (li : NDArray) : Except PyError Unit := do
  shapeChecks t predShape targetShape
  indicatorChecks t li

/-- `EMI_RNNTrainer.__validateInit`: runs the assertions, and only when all
pass performs its single attribute write `self.__validInit = True`. -/
def validateInit (t : Trainer) (predShape targetShape : List Nat)
    (li : NDArray) : Trainer × Except PyError Unit :=
  match validateChecks t predShape targetShape li with
  | .ok () => ({ t with validInit := true }, .ok ())
  | .error e => (t, .error e)

/-- `EMI_RNNTrainer.__transformY`: tile the target across all time steps. -/
def transformY (t : Trainer) (target : TFNode) : TFNode :=
  .tile (.expandDims target 2) [1, 1, (t.numTimeSteps : Int), 1]

/-- `EMI_RNNTrainer.__createLossOp`.  `astype('float32')` is the identity
on the integer indicator data; the `lossIndicator` variable write happens
before the second `__findIndicatorStart` call, which is why the updated
trainer is returned even when that call raises. -/
def createLossOp (t : Trainer) (predicted target : TFNode) (li : NDArray) :
    Trainer × Except PyError TFNode :=
  if t.validInit = true then
    let indicatorVar := TFNode.tfVariable "lossIndicator" li.data
    let t1 := { t with lossIndicatorTensor := some indicatorVar }
    let logitsA := TFNode.reshape predicted
      [-1, (t.numTimeSteps : Int), (t.numOutput : Int)]
    let labelsA := TFNode.reshape target
      [-1, (t.numTimeSteps : Int), (t.numOutput : Int)]
    let diff := TFNode.mul indicatorVar (TFNode.sub logitsA labelsA)
    match findIndicatorStart li with
    | .error e => (t1, .error e)
    | .ok idx =>
      let logitsB := TFNode.reshape (TFNode.sliceFrom logitsA idx)
        [-1, (t.numOutput : Int)]
      let labelsB := TFNode.reshape (TFNode.sliceFrom labelsA idx)
        [-1, (t.numOutput : Int)]
      if t.lossType = "xentropy" then
        (t1, .ok (TFNode.reduceMean (TFNode.softmaxCE labelsB logitsB)
          "xentropy-loss"))
      else if t.lossType = "l2" then
        (t1, .ok (TFNode.l2Loss diff "l2-loss"))
      else
        (t1, .error (.unboundLocalError "lossOp"))
  else (t, .error (.assertionError (some "Initialization failure")))

/-- `EMI_RNNTrainer.__createTrainOp`: an Adam minimization step of the
current loss op. -/
def createTrainOp (t : Trainer) : Except PyError TFNode :=
  match t.lossOp with
  | some l => .ok (TFNode.adamMinimize t.stepSize l)
  | none => .error .typeError

/-- `EMI_RNNTrainer.createOpCollections`. -/
def createOpCollections (s : TFState) (t : Trainer) : TFState :=
  { collections := s.collections ++
      [("EMI-train-op", t.trainOp), ("EMI-loss-op", t.lossOp)] }

/-- `EMI_RNNTrainer._createGraph`. -/
def createGraph (s : TFState) (t : Trainer) (predicted target : TFNode)
    (li : NDArray) : TFState × Trainer × Except PyError Unit :=
  let targetT := transformY t target
  match createLossOp t predicted targetT li with
  | (t1, .error e) => (s, t1, .error e)
  | (t1, .ok lossNode) =>
    let t2 := { t1 with lossOp := some lossNode }
    match createTrainOp t2 with
    | .error e => (s, t2, .error e)
    | .ok trainNode =>
      let t3 := { t2 with trainOp := some trainNode }
      let s1 := if t3.automode then createOpCollections s t3 else s
      (s1, { t3 with graphCreated := true }, .ok ())

/-- `EMI_RNNTrainer.__call__`.  The result pair is exactly the returned
`(self.lossOp, self.trainOp)`, which are attributes and hence `Option`s;
the class defines no `_restoreGraph`, so reaching that call raises
`AttributeError`. -/
def callTrainer (s : TFState) (t : Trainer) (predicted target : TFTensor)
    (li : NDArray) :
    TFState × Trainer × Except PyError (Option TFNode × Option TFNode) :=
  if t.graphCreated = true then
    if t.lossOp = none then (s, t, .error (.assertionError none))
    else if t.trainOp = none then (s, t, .error (.assertionError none))
    else (s, t, .ok (t.lossOp, t.trainOp))
  else
    match validateInit t predicted.shape target.shape li with
    | (t1, .error e) => (s, t1, .error e)
    | (t1, .ok ()) =>
      if t1.validInit = true then
        match t1.graph with
        | none =>
          match createGraph s t1 (.atom predicted) (.atom target) li with
          | (s1, t2, .error e) => (s1, t2, .error e)
          | (s1, t2, .ok ()) =>
            if t2.graphCreated = true then (s1, t2, .ok (t2.lossOp, t2.trainOp))
            else (s1, t2, .error (.assertionError none))
        | some _ => (s, t1, .error (.attributeError "_restoreGraph"))
      else (s, t1, .error (.assertionError none))

/-- Outcome of one `sess.run` call inside `trainModel`. -/
inductive RunResult where
  | runOk
  | outOfRange
  | raiseOther (e : String)
deriving DecidableEq

/-- One successfully completed loop iteration of `trainModel`: either the
echo path (which runs both the train op and the loss op) or the plain
train-step path, tagged with the batch counter at that iteration. -/
inductive TrainEvent where
  | echo (batch : Nat)
  | plain (batch : Nat)
deriving DecidableEq

/-- How a run of `trainModel` ends, with the final batch counter and the
completed iterations in order. -/
inductive TrainOutcome where
  | finished (batches : Nat) (events : List TrainEvent)
  | raised (e : String) (batches : Nat) (events : List TrainEvent)
  | noMoreResults (batches : Nat) (events : List TrainEvent)
deriving DecidableEq

/-- The branch taken at batch counter `b`: echo when `b` is a multiple of
`echoInterval`, plain otherwise. -/
def stepEvent (echoInterval b : Nat) : TrainEvent :=
  if b % echoInterval = 0 then .echo b else .plain b

/-- The `while True` loop of `EMI_RNNTrainer.trainModel` with the default
echo callback, driven by the schedule of `sess.run` outcomes.  Evaluating
`currentBatch % echoInterval` with `echoInterval = 0` raises
`ZeroDivisionError` inside the `try`, which the `except` clause (only for
`OutOfRangeError`) does not catch. -/
def trainModelAux (echoInterval : Nat) :
    List RunResult → Nat → List TrainEvent → TrainOutcome
  | [], b, evs =>
    if echoInterval = 0 then .raised "ZeroDivisionError" b evs.reverse
    else .noMoreResults b evs.reverse
  | r :: rest, b, evs =>
    if echoInterval = 0 then .raised "ZeroDivisionError" b evs.reverse
    else
      match r with
      | .runOk =>
        trainModelAux echoInterval rest (b + 1)
          (stepEvent echoInterval b :: evs)
      | .outOfRange => .finished b evs.reverse
      | .raiseOther e => .raised e b evs.reverse

/-- `EMI_RNNTrainer.trainModel`, starting from batch counter 0. -/
def trainModel (sched : List RunResult) (echoInterval : Nat) : TrainOutcome :=
  trainModelAux echoInterval sched 0 []

/-- The events of `n` successful iterations starting at batch 0. -/
def expectedEvents (echoInterval n : Nat) : List TrainEvent :=
  (List.range n).map (stepEvent echoInterval)

/-- The events of `n` successful iterations starting at batch counter `b`. -/
def evRange (echoInterval b n : Nat) : List TrainEvent :=
  (List.range n).map (fun i => stepEvent echoInterval (b + i))

/-- Whether an `Except` result is a Python `AssertionError`. -/
def isAssertionError {α : Type} : Except PyError α → Bool
  | .error (.assertionError _) => true
  | _ => false

/-- The acceptance condition on `lossIndicator` exactly as the specification
sentence states it: 2-dimensional; there is a least row index `idx` whose
column 0 holds 1; the rows before `idx` sum to 0; the rows from `idx` on sum
to `(rows - idx) * numOutput`. -/
def claimIndicatorOK (numOutput : Nat) (li : NDArray) : Prop :=
  li.ndim = 2 ∧
  ∃ idx < li.data.length,
    (li.data.getD idx []).headD 0 = 1 ∧
    (∀ j < idx, (li.data.getD j []).headD 0 ≠ 1) ∧
    npSum2 (li.data.take idx) = 0 ∧
    npSum2 (li.data.drop idx) =
      ((li.data.length : Int) - (idx : Int)) * (numOutput : Int)

instance (numOutput : Nat) (li : NDArray) :
    Decidable (claimIndicatorOK numOutput li) := by
  unfold claimIndicatorOK; infer_instance

/-- The reshaped prediction node `logits__` built by `__createLossOp`. -/
def reshapedLogits (t : Trainer) (predicted : TFNode) : TFNode :=
  .reshape predicted [-1, (t.numTimeSteps : Int), (t.numOutput : Int)]

/-- The tiled-and-reshaped target node `labels__` built by `_createGraph`
(via `__transformY`) and `__createLossOp`. -/
def tiledLabels (t : Trainer) (target : TFNode) : TFNode :=
  .reshape (transformY t target) [-1, (t.numTimeSteps : Int), (t.numOutput : Int)]

/-- The loss node produced for `lossType = 'l2'`: the L2 loss of the
indicator mask multiplied elementwise with predictions minus tiled target. -/
def l2LossNode (t : Trainer) (predicted target : TFNode) (li : NDArray) : TFNode :=
  .l2Loss (.mul (.tfVariable "lossIndicator" li.data)
    (.sub (reshapedLogits t predicted) (tiledLabels t target))) "l2-loss"

/-- The loss node produced for `lossType = 'xentropy'`: mean softmax
cross-entropy over the timesteps from the indicator start index on. -/
def xentropyLossNode (t : Trainer) (predicted target : TFNode) (idx : Int) : TFNode :=
  .reduceMean (.softmaxCE
    (.reshape (.sliceFrom (tiledLabels t target) idx) [-1, (t.numOutput : Int)])
    (.reshape (.sliceFrom (reshapedLogits t predicted) idx) [-1, (t.numOutput : Int)]))
    "xentropy-loss"

/-- The loss node a valid first call constructs, by loss type. -/
def firstLossNode (t : Trainer) (pred tgt : TFTensor) (li : NDArray)
    (idx : Int) : TFNode :=
  if t.lossType = "xentropy" then xentropyLossNode t (.atom pred) (.atom tgt) idx
  else l2LossNode t (.atom pred) (.atom tgt) li

/-! ### Concrete fixtures used to instantiate the theorems -/

/-- An empty tensorflow collection state. -/
def emptyState : TFState := { collections := [] }

/-- A small trainer: 2 time steps, 2 outputs, l2 loss, Adam, automode. -/
def sampleTrainer : Trainer :=
  { numTimeSteps := 2, numOutput := 2, graph := none, stepSize := 1,
    lossType := "l2", optimizer := "Adam", automode := true,
    validInit := false, graphCreated := false, lossOp := none,
    trainOp := none, lossIndicatorTensor := none }

/-- A prediction tensor of shape `[1, 1, 2, 2]` matching `sampleTrainer`. -/
def samplePred : TFTensor := { name := "pred", shape := [1, 1, 2, 2] }

/-- A target tensor of shape `[1, 1, 2]` matching `sampleTrainer`. -/
def sampleTgt : TFTensor := { name := "tgt", shape := [1, 1, 2] }

/-- A valid loss indicator for `sampleTrainer`: the `1` rows start at row 1. -/
def sampleLI : NDArray := { ndim := 2, data := [[0, 0], [1, 1]] }

/-- A prediction tensor whose last dimension (5) mismatches `sampleTrainer`. -/
def badPred : TFTensor := { name := "badPred", shape := [1, 1, 2, 5] }

/-- A prediction tensor with only 3 dimensions. -/
def badPred3 : TFTensor := { name := "badPred3", shape := [1, 2, 3] }

/-- A trainer with 2 time steps and 3 outputs (for the C2 counterexample). -/
def cexTrainer : Trainer :=
  { numTimeSteps := 2, numOutput := 3, graph := none, stepSize := 1,
    lossType := "l2", optimizer := "Adam", automode := true,
    validInit := false, graphCreated := false, lossOp := none,
    trainOp := none, lossIndicatorTensor := none }

/-- A prediction tensor of shape `[1, 1, 2, 3]` matching `cexTrainer`. -/
def cexPred : TFTensor := { name := "p", shape := [1, 1, 2, 3] }

/-- A one-dimensional target tensor. -/
def cexTgt : TFTensor := { name := "y", shape := [7] }

/-- A prediction tensor of shape `[5, 4, 2, 3]` matching `cexTrainer`. -/
def cexPred2 : TFTensor := { name := "p2", shape := [5, 4, 2, 3] }

/-- A target tensor of shape `[5, 4, 3]` matching `cexTrainer`. -/
def cexTgt2 : TFTensor := { name := "y2", shape := [5, 4, 3] }

/-- A rectangular 2-d numpy array with one row and zero columns. -/
def zeroColLI : NDArray := { ndim := 2, data := [[]] }

/-- A trainer like `sampleTrainer` but with a pre-supplied graph. -/
def restoreTrainer : Trainer :=
  { numTimeSteps := 2, numOutput := 2, graph := some (), stepSize := 1,
    lossType := "l2", optimizer := "Adam", automode := true,
    validInit := false, graphCreated := false, lossOp := none,
    trainOp := none, lossIndicatorTensor := none }

/-- A trainer whose graph has already been created, with cached ops. -/
def cachedTrainer : Trainer :=
  { numTimeSteps := 2, numOutput := 2, graph := none, stepSize := 1,
    lossType := "l2", optimizer := "Adam", automode := true,
    validInit := true, graphCreated := true,
    lossOp := some (.atom samplePred), trainOp := some (.atom sampleTgt),
    lossIndicatorTensor := none }

/-! ### Helper lemmas -/

@[simp]
lemma ok_bind {ε α β : Type} (a : α) (f : α → Except ε β) :
    (Except.ok a >>= f : Except ε β) = f a := rfl

@[simp]
lemma error_bind {ε α β : Type} (e : ε) (f : α → Except ε β) :
    (Except.error e >>= f : Except ε β) = .error e := rfl

@[simp]
lemma pyAssert_true {b : Bool} {msg : Option String} (h : b = true) :
    pyAssert b msg = .ok () := by simp [pyAssert, h]

lemma pyAssert_false {b : Bool} {msg : Option String} (h : b = false) :
    pyAssert b msg = .error (.assertionError msg) := by simp [pyAssert, h]

@[simp]
lemma pyAssert_ok_iff {b : Bool} {msg : Option String} :
    pyAssert b msg = .ok () ↔ b = true := by
  cases b <;> simp [pyAssert]

lemma shapeGet_lt {s : List Nat} {i : Nat} (h : i < s.length) :
    shapeGet s i = .ok (s.getD i 0) := by
  unfold shapeGet
  rw [List.get?_eq_getElem?, List.getElem?_eq_getElem h]
  simp [List.getD_eq_getElem?_getD, List.getElem?_eq_getElem h]

lemma shapeGet_ge {s : List Nat} {i : Nat} (h : s.length ≤ i) :
    shapeGet s i = .error .indexError := by
  unfold shapeGet
  rw [List.get?_eq_getElem?, List.getElem?_eq_none h]

lemma initTrainer_ok {T O : Nat} {g : Option Unit} {ss : Rat}
    {lt opt : String} {am : Bool} {t : Trainer}
    (h : initTrainer T O g ss lt opt am = .ok t) :
    (lt = "xentropy" ∨ lt = "l2") ∧ opt = "Adam" ∧
    t = { numTimeSteps := T, numOutput := O, graph := g, stepSize := ss,
          lossType := lt, optimizer := opt, automode := am,
          validInit := false, graphCreated := false, lossOp := none,
          trainOp := none, lossIndicatorTensor := none } := by
  unfold initTrainer at h
  cases h1 : supportedLosses.contains lt with
  | false => rw [pyAssert_false h1] at h; simp at h
  | true =>
    rw [pyAssert_true h1] at h
    cases h2 : supportedOptimizers.contains opt with
    | false => rw [pyAssert_false h2] at h; simp at h
    | true =>
      rw [pyAssert_true h2] at h
      have hm1 : lt ∈ supportedLosses := List.elem_iff.mp h1
      have hm2 : opt ∈ supportedOptimizers := List.elem_iff.mp h2
      simp [supportedLosses] at hm1
      simp [supportedOptimizers] at hm2
      simp only [ok_bind, pure, Except.pure, Except.ok.injEq] at h
      exact ⟨hm1, hm2, h.symm⟩

lemma initTrainer_of_supported (T O : Nat) (g : Option Unit) (ss : Rat)
    (lt opt : String) (am : Bool)
    (hlt : lt = "xentropy" ∨ lt = "l2") (hopt : opt = "Adam") :
    initTrainer T O g ss lt opt am =
      .ok { numTimeSteps := T, numOutput := O, graph := g, stepSize := ss,
            lossType := lt, optimizer := opt, automode := am,
            validInit := false, graphCreated := false, lossOp := none,
            trainOp := none, lossIndicatorTensor := none } := by
  have h1 : supportedLosses.contains lt = true := by
    apply List.elem_iff.mpr
    rcases hlt with h | h <;> simp [supportedLosses, h]
  have h2 : supportedOptimizers.contains opt = true := by
    apply List.elem_iff.mpr
    simp [supportedOptimizers, hopt]
  unfold initTrainer
  rw [pyAssert_true h1, ok_bind, pyAssert_true h2, ok_bind]
  rfl

lemma shapeChecks_ok_iff (t : Trainer) (p g : List Nat) :
    shapeChecks t p g = .ok () ↔
      (p.length = 4 ∧ p.getD 3 0 = t.numOutput ∧ p.getD 2 0 = t.numTimeSteps ∧
       g.length = 3 ∧ p.getD 1 0 = g.getD 1 0 ∧ g.getD 2 0 = t.numOutput) := by
  unfold shapeChecks
  by_cases h1 : p.length = 4
  case neg =>
    have hb : (p.length == 4) = false := beq_eq_false_iff_ne.mpr h1
    rw [pyAssert_false hb, error_bind]
    exact iff_of_false (by simp) (by intro hh; exact h1 hh.1)
  case pos =>
    have hb : (p.length == 4) = true := beq_iff_eq.mpr h1
    rw [pyAssert_true hb, ok_bind, shapeGet_lt (by omega), ok_bind]
    by_cases h2 : p.getD 3 0 = t.numOutput
    case neg =>
      have hb2 : (p.getD 3 0 == t.numOutput) = false := beq_eq_false_iff_ne.mpr h2
      rw [pyAssert_false hb2, error_bind]
      exact iff_of_false (by simp) (by intro hh; exact h2 hh.2.1)
    case pos =>
      have hb2 : (p.getD 3 0 == t.numOutput) = true := beq_iff_eq.mpr h2
      rw [pyAssert_true hb2, ok_bind, shapeGet_lt (by omega), ok_bind]
      by_cases h3 : p.getD 2 0 = t.numTimeSteps
      case neg =>
        have hb3 : (p.getD 2 0 == t.numTimeSteps) = false := beq_eq_false_iff_ne.mpr h3
        rw [pyAssert_false hb3, error_bind]
        exact iff_of_false (by simp) (by intro hh; exact h3 hh.2.2.1)
      case pos =>
        have hb3 : (p.getD 2 0 == t.numTimeSteps) = true := beq_iff_eq.mpr h3
        rw [pyAssert_true hb3, ok_bind, shapeGet_lt (by omega), ok_bind]
        by_cases hg2 : 2 ≤ g.length
        case neg =>
          rw [shapeGet_ge (by omega), error_bind]
          exact iff_of_false (by simp)
            (by rintro ⟨-, -, -, hlen, -, -⟩; omega)
        case pos =>
          rw [shapeGet_lt (by omega), ok_bind]
          by_cases h4 : p.getD 1 0 = g.getD 1 0
          case neg =>
            have hb4 : (p.getD 1 0 == g.getD 1 0) = false := beq_eq_false_iff_ne.mpr h4
            rw [pyAssert_false hb4, error_bind]
            exact iff_of_false (by simp) (by intro hh; exact h4 hh.2.2.2.2.1)
          case pos =>
            have hb4 : (p.getD 1 0 == g.getD 1 0) = true := beq_iff_eq.mpr h4
            rw [pyAssert_true hb4, ok_bind]
            by_cases h5 : g.length = 3
            case neg =>
              have hb5 : (g.length == 3) = false := beq_eq_false_iff_ne.mpr h5
              rw [pyAssert_false hb5, error_bind]
              exact iff_of_false (by simp) (by intro hh; exact h5 hh.2.2.2.1)
            case pos =>
              have hb5 : (g.length == 3) = true := beq_iff_eq.mpr h5
              rw [pyAssert_true hb5, ok_bind, shapeGet_lt (by omega), ok_bind]
              by_cases h6 : g.getD 2 0 = t.numOutput
              case neg =>
                have hb6 : (g.getD 2 0 == t.numOutput) = false := beq_eq_false_iff_ne.mpr h6
                rw [pyAssert_false hb6]
                exact iff_of_false (by simp)
                  (by intro hh; exact h6 hh.2.2.2.2.2)
              case pos =>
                have hb6 : (g.getD 2 0 == t.numOutput) = true := beq_iff_eq.mpr h6
                rw [pyAssert_true hb6]
                exact iff_of_true rfl ⟨h1, h2, h3, h5, h4, h6⟩

lemma validateChecks_of_shape_error {t : Trainer} {p g : List Nat}
    {li : NDArray} {e : PyError} (h : shapeChecks t p g = .error e) :
    validateChecks t p g li = .error e := by
  unfold validateChecks; rw [h, error_bind]

lemma validateChecks_of_shape_ok {t : Trainer} {p g : List Nat} {li : NDArray}
    (h : shapeChecks t p g = .ok ()) :
    validateChecks t p g li = indicatorChecks t li := by
  unfold validateChecks; rw [h, ok_bind]

lemma validateInit_ok {t : Trainer} {p g : List Nat} {li : NDArray}
    (h : validateChecks t p g li = .ok ()) :
    validateInit t p g li = ({ t with validInit := true }, .ok ()) := by
  unfold validateInit; rw [h]

lemma validateInit_error {t : Trainer} {p g : List Nat} {li : NDArray}
    {e : PyError} (h : validateChecks t p g li = .error e) :
    validateInit t p g li = (t, .error e) := by
  unfold validateInit; rw [h]

lemma callTrainer_validation_error {s : TFState} {t : Trainer}
    {pred tgt : TFTensor} {li : NDArray} {e : PyError}
    (hgc : t.graphCreated = false)
    (hv : validateChecks t pred.shape tgt.shape li = .error e) :
    callTrainer s t pred tgt li = (s, t, .error e) := by
  unfold callTrainer
  rw [if_neg (by simp [hgc]), validateInit_error hv]

lemma createLossOp_eq {t : Trainer} {li : NDArray} {idx : Int}
    (p g : TFNode) (hvi : t.validInit = true)
    (hidx : findIndicatorStart li = .ok idx)
    (hl : t.lossType = "xentropy" ∨ t.lossType = "l2") :
    createLossOp t p g li =
      ({ t with lossIndicatorTensor := some (.tfVariable "lossIndicator" li.data) },
       .ok (if t.lossType = "xentropy"
            then .reduceMean (.softmaxCE
              (.reshape (.sliceFrom
                (.reshape g [-1, (t.numTimeSteps : Int), (t.numOutput : Int)]) idx)
                [-1, (t.numOutput : Int)])
              (.reshape (.sliceFrom
                (.reshape p [-1, (t.numTimeSteps : Int), (t.numOutput : Int)]) idx)
                [-1, (t.numOutput : Int)])) "xentropy-loss"
            else .l2Loss (.mul (.tfVariable "lossIndicator" li.data)
              (.sub (.reshape p [-1, (t.numTimeSteps : Int), (t.numOutput : Int)])
                    (.reshape g [-1, (t.numTimeSteps : Int), (t.numOutput : Int)])))
              "l2-loss")) := by
  rcases hl with hx | hx <;>
    simp [createLossOp, hvi, hidx, hx]

lemma callTrainer_first_ok {s : TFState} {t : Trainer} {pred tgt : TFTensor}
    {li : NDArray} {idx : Int}
    (hgc : t.graphCreated = false) (hg : t.graph = none)
    (hv : validateChecks t pred.shape tgt.shape li = .ok ())
    (hidx : findIndicatorStart li = .ok idx)
    (hl : t.lossType = "xentropy" ∨ t.lossType = "l2") :
    callTrainer s t pred tgt li =
      ((if t.automode = true then
          { collections := s.collections ++
              [("EMI-train-op",
                some (.adamMinimize t.stepSize (firstLossNode t pred tgt li idx))),
               ("EMI-loss-op", some (firstLossNode t pred tgt li idx))] }
        else s),
       { t with validInit := true,
                lossIndicatorTensor := some (.tfVariable "lossIndicator" li.data),
                lossOp := some (firstLossNode t pred tgt li idx),
                trainOp := some
                  (.adamMinimize t.stepSize (firstLossNode t pred tgt li idx)),
                graphCreated := true },
       .ok (some (firstLossNode t pred tgt li idx),
            some (.adamMinimize t.stepSize (firstLossNode t pred tgt li idx)))) := by
  rcases hl with hx | hx <;>
    simp [callTrainer, hgc, validateInit_ok hv, createGraph, createLossOp,
          createTrainOp, transformY, createOpCollections, hidx, hx, hg,
          firstLossNode, l2LossNode, xentropyLossNode, reshapedLogits,
          tiledLabels]

lemma findRow_no_one (data : List (List Int)) (i : Nat)
    (hne : ∀ r ∈ data, r ≠ []) (hno : ∀ r ∈ data, r.headD 0 ≠ 1) :
    findRow data i = .ok (-1) := by
  induction data generalizing i with
  | nil => rfl
  | cons row rest ih =>
    have hrow : row ≠ [] := hne row (List.mem_cons_self _ _)
    match row with
    | [] => exact absurd rfl hrow
    | a :: row' =>
      have ha : a ≠ 1 := by
        have := hno (a :: row') (List.mem_cons_self _ _)
        simpa using this
      simp only [findRow, List.head?, if_neg ha]
      exact ih (i + 1) (fun r hr => hne r (List.mem_cons_of_mem _ hr))
        (fun r hr => hno r (List.mem_cons_of_mem _ hr))

lemma findRow_least (data : List (List Int)) (i k : Nat)
    (hne : ∀ r ∈ data, r ≠ [])
    (hk : k < data.length) (h1 : (data.getD k []).headD 0 = 1)
    (hmin : ∀ j < k, (data.getD j []).headD 0 ≠ 1) :
    findRow data i = .ok (Int.ofNat (i + k)) := by
  induction data generalizing i k with
  | nil => simp at hk
  | cons row rest ih =>
    have hrow : row ≠ [] := hne row (List.mem_cons_self _ _)
    match row with
    | [] => exact absurd rfl hrow
    | a :: row' =>
      cases k with
      | zero =>
        have ha : a = 1 := by simpa using h1
        simp [findRow, List.head?, ha]
      | succ k =>
        have ha : a ≠ 1 := by
          have := hmin 0 (Nat.succ_pos _)
          simpa using this
        simp only [findRow, List.head?, if_neg ha]
        have := ih (i + 1) k
          (fun r hr => hne r (List.mem_cons_of_mem _ hr))
          (by simpa using hk)
          (by simpa using h1)
          (fun j hj => by
            have := hmin (j + 1) (Nat.succ_lt_succ hj)
            simpa using this)
        have harith : i + 1 + k = i + (k + 1) := by omega
        rw [harith] at this
        exact this

lemma findRow_first_empty (rest : List (List Int)) (i : Nat) :
    findRow ([] :: rest) i = .error .indexError := rfl

lemma findIndicatorStart_of_ndim2 {li : NDArray} (h : li.ndim = 2) :
    findIndicatorStart li = findRow li.data 0 := by
  unfold findIndicatorStart
  rw [pyAssert_true (by simp [h]), ok_bind]

lemma indicatorChecks_of_find_ok {t : Trainer} {li : NDArray} {k : Nat}
    (hnd : li.ndim = 2) (hfind : findIndicatorStart li = .ok (Int.ofNat k)) :
    indicatorChecks t li =
      (pyAssert (npSum2 (li.data.take k) == 0) (some msgInd) >>= fun _ =>
       pyAssert (npSum2 (li.data.drop k) ==
         ((li.data.length : Int) - Int.ofNat k) * (t.numOutput : Int))
         (some msgInd)) := by
  unfold indicatorChecks
  rw [pyAssert_true (by simp [hnd]), ok_bind, hfind, ok_bind,
      pyAssert_true (by simp), ok_bind]
  rfl

lemma indicatorChecks_of_find_neg {t : Trainer} {li : NDArray}
    (hnd : li.ndim = 2) (hfind : findIndicatorStart li = .ok (-1)) :
    indicatorChecks t li = .error (.assertionError (some msgInd)) := by
  unfold indicatorChecks
  rw [pyAssert_true (by simp [hnd]), ok_bind, hfind, ok_bind,
      pyAssert_false (by decide), error_bind]

lemma indicatorChecks_of_find_error {t : Trainer} {li : NDArray} {e : PyError}
    (hnd : li.ndim = 2) (hfind : findIndicatorStart li = .error e) :
    indicatorChecks t li = .error e := by
  unfold indicatorChecks
  rw [pyAssert_true (by simp [hnd]), ok_bind, hfind, error_bind]

lemma rect_rows_nonempty {li : NDArray} (hrect : li.rect)
    (hfr : li.data.headD [] ≠ []) : ∀ r ∈ li.data, r ≠ [] := by
  intro r hr hcon
  have hlen := hrect r hr
  rw [hcon] at hlen
  exact hfr (List.length_eq_zero.mp hlen.symm)

lemma rect_rows_empty {li : NDArray} (hrect : li.rect)
    (hfr : li.data.headD [] = []) : ∀ r ∈ li.data, r = [] := by
  intro r hr
  have hlen := hrect r hr
  rw [hfr] at hlen
  exact List.length_eq_zero.mp (by simpa using hlen)

lemma indicatorChecks_spec (t : Trainer) (li : NDArray) (hrect : li.rect) :
    (indicatorChecks t li = .ok () ↔ claimIndicatorOK t.numOutput li) ∧
    (¬ claimIndicatorOK t.numOutput li →
      ((li.ndim = 2 ∧ li.data ≠ [] ∧ li.data.headD [] = []) →
        indicatorChecks t li = .error .indexError) ∧
      (¬ (li.ndim = 2 ∧ li.data ≠ [] ∧ li.data.headD [] = []) →
        indicatorChecks t li = .error (.assertionError (some msgInd)))) := by
  by_cases hnd : li.ndim = 2
  case neg =>
    have hlhs : indicatorChecks t li = .error (.assertionError (some msgInd)) := by
      unfold indicatorChecks
      rw [pyAssert_false (by simp [hnd]), error_bind]
    have hnp : ¬ claimIndicatorOK t.numOutput li := fun hp => hnd hp.1
    exact ⟨iff_of_false (by simp [hlhs]) hnp,
      fun _ => ⟨fun hz => absurd hz.1 hnd, fun _ => hlhs⟩⟩
  case pos =>
    by_cases hdata : li.data = []
    · have hfind : findIndicatorStart li = .ok (-1) := by
        rw [findIndicatorStart_of_ndim2 hnd, hdata]; rfl
      have hlhs := indicatorChecks_of_find_neg (t := t) hnd hfind
      have hnp : ¬ claimIndicatorOK t.numOutput li := by
        rintro ⟨-, idx, hlt, -⟩
        rw [hdata] at hlt
        simp at hlt
      exact ⟨iff_of_false (by simp [hlhs]) hnp,
        fun _ => ⟨fun hz => absurd hz.2.1 (by simp [hdata]),
                  fun _ => hlhs⟩⟩
    · by_cases hfr : li.data.headD [] = []
      · -- a 2-d array with rows but zero columns: IndexError
        have hfind : findIndicatorStart li = .error .indexError := by
          rw [findIndicatorStart_of_ndim2 hnd]
          match hd : li.data with
          | [] => exact absurd hd hdata
          | row :: rest =>
            have : row = [] := by
              have := hfr; rw [hd] at this; simpa using this
            rw [this]
            exact findRow_first_empty rest 0
        have hlhs := indicatorChecks_of_find_error (t := t) hnd hfind
        have hnp : ¬ claimIndicatorOK t.numOutput li := by
          rintro ⟨-, idx, hlt, h1, -⟩
          have hmem : li.data.getD idx [] ∈ li.data := by
            rw [List.getD_eq_getElem li.data [] hlt]
            exact List.getElem_mem hlt
          rw [rect_rows_empty hrect hfr _ hmem] at h1
          simp at h1
        exact ⟨iff_of_false (by simp [hlhs]) hnp,
          fun _ => ⟨fun _ => hlhs,
            fun hz => absurd ⟨hnd, hdata, hfr⟩ hz⟩⟩
      · have hne : ∀ r ∈ li.data, r ≠ [] := rect_rows_nonempty hrect hfr
        by_cases hex : ∃ j, j < li.data.length ∧ (li.data.getD j []).headD 0 = 1
        · set k := Nat.find hex with hkdef
          obtain ⟨hklt, hk1⟩ := Nat.find_spec hex
          have hkmin : ∀ j < k, (li.data.getD j []).headD 0 ≠ 1 := by
            intro j hj h1j
            exact Nat.find_min hex hj ⟨by omega, h1j⟩
          have hfind : findIndicatorStart li = .ok (Int.ofNat k) := by
            rw [findIndicatorStart_of_ndim2 hnd]
            have := findRow_least li.data 0 k hne hklt hk1 hkmin
            simpa using this
          have hred := indicatorChecks_of_find_ok (t := t) hnd hfind
          have huniq : ∀ idx, idx < li.data.length →
              (li.data.getD idx []).headD 0 = 1 →
              (∀ j < idx, (li.data.getD j []).headD 0 ≠ 1) → idx = k := by
            intro idx hlt h1 hmin
            have h2 : k ≤ idx := Nat.find_min' hex ⟨hlt, h1⟩
            have h3 : ¬ k < idx := fun hc => hmin k hc hk1
            omega
          by_cases hs1 : npSum2 (li.data.take k) = 0
          · by_cases hs2 : npSum2 (li.data.drop k) =
                ((li.data.length : Int) - Int.ofNat k) * (t.numOutput : Int)
            · have hlhs : indicatorChecks t li = .ok () := by
                rw [hred, pyAssert_true (beq_iff_eq.mpr hs1), ok_bind,
                    pyAssert_true (beq_iff_eq.mpr hs2)]
              have hp : claimIndicatorOK t.numOutput li :=
                ⟨hnd, k, hklt, hk1, hkmin, hs1, hs2⟩
              exact ⟨iff_of_true hlhs hp, fun hnp => absurd hp hnp⟩
            · have hlhs : indicatorChecks t li =
                  .error (.assertionError (some msgInd)) := by
                rw [hred, pyAssert_true (beq_iff_eq.mpr hs1), ok_bind,
                    pyAssert_false (beq_eq_false_iff_ne.mpr hs2)]
              have hnp : ¬ claimIndicatorOK t.numOutput li := by
                rintro ⟨-, idx, hlt, h1, hmin, -, hsum2⟩
                rw [huniq idx hlt h1 hmin] at hsum2
                exact hs2 hsum2
              exact ⟨iff_of_false (by simp [hlhs]) hnp,
                fun _ => ⟨fun hz => absurd hz.2.2 hfr, fun _ => hlhs⟩⟩
          · have hlhs : indicatorChecks t li =
                .error (.assertionError (some msgInd)) := by
              rw [hred, pyAssert_false (beq_eq_false_iff_ne.mpr hs1), error_bind]
            have hnp : ¬ claimIndicatorOK t.numOutput li := by
              rintro ⟨-, idx, hlt, h1, hmin, hsum1, -⟩
              rw [huniq idx hlt h1 hmin] at hsum1
              exact hs1 hsum1
            exact ⟨iff_of_false (by simp [hlhs]) hnp,
              fun _ => ⟨fun hz => absurd hz.2.2 hfr, fun _ => hlhs⟩⟩
        · have hno : ∀ r ∈ li.data, r.headD 0 ≠ 1 := by
            intro r hr h1
            obtain ⟨j, hj, hjr⟩ := List.mem_iff_getElem.mp hr
            refine hex ⟨j, hj, ?_⟩
            rw [List.getD_eq_getElem li.data [] hj, hjr]
            exact h1
          have hfind : findIndicatorStart li = .ok (-1) := by
            rw [findIndicatorStart_of_ndim2 hnd]
            exact findRow_no_one li.data 0 hne hno
          have hlhs := indicatorChecks_of_find_neg (t := t) hnd hfind
          have hnp : ¬ claimIndicatorOK t.numOutput li := by
            rintro ⟨-, idx, hlt, h1, -⟩
            refine hex ⟨idx, hlt, h1⟩
          exact ⟨iff_of_false (by simp [hlhs]) hnp,
            fun _ => ⟨fun hz => absurd hz.2.2 hfr, fun _ => hlhs⟩⟩

lemma shapeChecks_error_of_violation (t : Trainer) (p g : List Nat)
    (hviol : p.length ≠ 4 ∨ p.getD 3 0 ≠ t.numOutput ∨
             p.getD 2 0 ≠ t.numTimeSteps ∨ p.getD 1 0 ≠ g.getD 1 0 ∨
             g.length ≠ 3 ∨ g.getD 2 0 ≠ t.numOutput)
    (hguard : 2 ≤ g.length ∨ p.length ≠ 4 ∨ p.getD 3 0 ≠ t.numOutput ∨
              p.getD 2 0 ≠ t.numTimeSteps) :
    ∃ m, shapeChecks t p g = .error (.assertionError m) := by
  unfold shapeChecks
  by_cases h1 : p.length = 4
  case neg =>
    exact ⟨some msgDim,
      by rw [pyAssert_false (beq_eq_false_iff_ne.mpr h1), error_bind]⟩
  case pos =>
    rw [pyAssert_true (beq_iff_eq.mpr h1), ok_bind, shapeGet_lt (by omega),
        ok_bind]
    by_cases h2 : p.getD 3 0 = t.numOutput
    case neg =>
      exact ⟨some msgDim,
        by rw [pyAssert_false (beq_eq_false_iff_ne.mpr h2), error_bind]⟩
    case pos =>
      rw [pyAssert_true (beq_iff_eq.mpr h2), ok_bind, shapeGet_lt (by omega),
          ok_bind]
      by_cases h3 : p.getD 2 0 = t.numTimeSteps
      case neg =>
        exact ⟨some msgDim,
          by rw [pyAssert_false (beq_eq_false_iff_ne.mpr h3), error_bind]⟩
      case pos =>
        have hg2 : 2 ≤ g.length := by
          rcases hguard with h | h | h | h
          · exact h
          · exact absurd h1 h
          · exact absurd h2 h
          · exact absurd h3 h
        rw [pyAssert_true (beq_iff_eq.mpr h3), ok_bind,
            shapeGet_lt (by omega), ok_bind, shapeGet_lt (by omega), ok_bind]
        by_cases h4 : p.getD 1 0 = g.getD 1 0
        case neg =>
          exact ⟨some msgDim,
            by rw [pyAssert_false (beq_eq_false_iff_ne.mpr h4), error_bind]⟩
        case pos =>
          rw [pyAssert_true (beq_iff_eq.mpr h4), ok_bind]
          by_cases h5 : g.length = 3
          case neg =>
            exact ⟨none,
              by rw [pyAssert_false (beq_eq_false_iff_ne.mpr h5), error_bind]⟩
          case pos =>
            rw [pyAssert_true (beq_iff_eq.mpr h5), ok_bind,
                shapeGet_lt (by omega), ok_bind]
            by_cases h6 : g.getD 2 0 = t.numOutput
            case neg =>
              exact ⟨none, by rw [pyAssert_false (beq_eq_false_iff_ne.mpr h6)]⟩
            case pos =>
              rcases hviol with h | h | h | h | h | h
              · exact absurd h1 h
              · exact absurd h2 h
              · exact absurd h3 h
              · exact absurd h4 h
              · exact absurd h5 h
              · exact absurd h6 h

lemma evRange_succ (eI b n : Nat) :
    evRange eI b (n + 1) = stepEvent eI b :: evRange eI (b + 1) n := by
  unfold evRange
  rw [List.range_succ_eq_map, List.map_cons, List.map_map]
  have hf : ((fun i => stepEvent eI (b + i)) ∘ Nat.succ) =
      (fun i => stepEvent eI (b + 1 + i)) := by
    funext i
    simp only [Function.comp]
    congr 1
    omega
  rw [hf, Nat.add_zero]

lemma expectedEvents_eq_evRange (eI n : Nat) :
    expectedEvents eI n = evRange eI 0 n := by
  unfold expectedEvents evRange
  simp [Nat.zero_add]

lemma trainModelAux_ok_run (eI : Nat) (hne : ¬ eI = 0) :
    ∀ pre : List RunResult, (∀ r ∈ pre, r = .runOk) →
    ∀ (s : List RunResult) (b : Nat) (evs : List TrainEvent),
    trainModelAux eI (pre ++ s) b evs =
      trainModelAux eI s (b + pre.length)
        ((evRange eI b pre.length).reverse ++ evs) := by
  intro pre
  induction pre with
  | nil => intro _ s b evs; simp [evRange]
  | cons r pre' ih =>
    intro hpre s b evs
    have hr : r = .runOk := hpre r (List.mem_cons_self _ _)
    subst hr
    have hstep : trainModelAux eI ((RunResult.runOk :: pre') ++ s) b evs =
        trainModelAux eI (pre' ++ s) (b + 1) (stepEvent eI b :: evs) := by
      simp only [List.cons_append, trainModelAux, if_neg hne, List.append_eq]
    rw [hstep, ih (fun r hr => hpre r (List.mem_cons_of_mem _ hr)) s (b + 1) _,
        List.length_cons, evRange_succ, List.reverse_cons, List.append_assoc,
        List.singleton_append,
        (by omega : b + 1 + pre'.length = b + (pre'.length + 1))]

lemma validateChecks_ok_parts {t : Trainer} {p g : List Nat} {li : NDArray}
    (h : validateChecks t p g li = .ok ()) :
    shapeChecks t p g = .ok () ∧ indicatorChecks t li = .ok () := by
  unfold validateChecks at h
  cases hs : shapeChecks t p g with
  | error e => rw [hs, error_bind] at h; exact absurd h (by simp)
  | ok u => cases u; rw [hs, ok_bind] at h; exact ⟨rfl, h⟩

lemma indicatorChecks_ok_find {t : Trainer} {li : NDArray}
    (h : indicatorChecks t li = .ok ()) :
    ∃ idx, findIndicatorStart li = .ok idx := by
  unfold indicatorChecks at h
  cases hnd : (li.ndim == 2) with
  | false => rw [pyAssert_false hnd, error_bind] at h; exact absurd h (by simp)
  | true =>
    rw [pyAssert_true hnd, ok_bind] at h
    cases hf : findIndicatorStart li with
    | error e => rw [hf, error_bind] at h; exact absurd h (by simp)
    | ok idx => exact ⟨idx, rfl⟩

/-! ### Claim theorems -/

/-- C1: for every trainer constructed with `graph=None` and a supported
`lossType` and `optimizer`, and all `predicted`, `target`, `lossIndicator`
passing the shape and indicator validation, the first call builds the graph
and returns the pair `(lossOp, trainOp)` with both handles non-`None`, and
afterwards `graphCreated` is `True`. -/
theorem first_call_builds_graph (T O : Nat) (ss : Rat) (lt opt : String)
    (am : Bool) (t : Trainer) (s : TFState) (pred tgt : TFTensor)
    (li : NDArray)
    (hinit : initTrainer T O none ss lt opt am = .ok t)
    (hv : validateChecks t pred.shape tgt.shape li = .ok ()) :
    ∃ s1 t1 lossNode trainNode,
      callTrainer s t pred tgt li =
        (s1, t1, .ok (some lossNode, some trainNode)) ∧
      t1.graphCreated = true ∧ t1.lossOp = some lossNode ∧
      t1.trainOp = some trainNode := by
  obtain ⟨hlt, hopt, ht⟩ := initTrainer_ok hinit
  have hgc : t.graphCreated = false := by rw [ht]
  have hg : t.graph = none := by rw [ht]
  have hl : t.lossType = "xentropy" ∨ t.lossType = "l2" := by rw [ht]; exact hlt
  obtain ⟨idx, hidx⟩ :=
    indicatorChecks_ok_find (validateChecks_ok_parts hv).2
  exact ⟨_, _, firstLossNode t pred tgt li idx,
    .adamMinimize t.stepSize (firstLossNode t pred tgt li idx),
    callTrainer_first_ok hgc hg hv hidx hl, rfl, rfl, rfl⟩

/-- Witness for C1 at concrete inputs. -/
theorem first_call_builds_graph_witness :
    initTrainer 2 2 none 1 "l2" "Adam" true = .ok sampleTrainer ∧
    validateChecks sampleTrainer samplePred.shape sampleTgt.shape sampleLI =
      .ok () ∧
    (∃ s1 t1 lossNode trainNode,
      callTrainer emptyState sampleTrainer samplePred sampleTgt sampleLI =
        (s1, t1, .ok (some lossNode, some trainNode)) ∧
      t1.graphCreated = true ∧ t1.lossOp = some lossNode ∧
      t1.trainOp = some trainNode) :=
  ⟨by decide, by decide,
   first_call_builds_graph 2 2 1 "l2" "Adam" true sampleTrainer emptyState
     samplePred sampleTgt sampleLI (by decide) (by decide)⟩

/-- C4: constructing an `EMI_RNNTrainer` raises an `AssertionError` if and
only if `lossType` is not one of `'xentropy'`, `'l2'`, or `optimizer` is not
`'Adam'`; every supported combination constructs normally. -/
theorem init_assert_iff (T O : Nat) (g : Option Unit) (ss : Rat)
    (lt opt : String) (am : Bool) :
    ((∃ m, initTrainer T O g ss lt opt am = .error (.assertionError m)) ↔
      ((lt ≠ "xentropy" ∧ lt ≠ "l2") ∨ opt ≠ "Adam")) ∧
    ((lt = "xentropy" ∨ lt = "l2") → opt = "Adam" →
      ∃ t, initTrainer T O g ss lt opt am = .ok t) := by
  constructor
  · constructor
    · rintro ⟨m, hm⟩
      by_contra hcon
      push_neg at hcon
      rw [initTrainer_of_supported T O g ss lt opt am
            (or_iff_not_imp_left.mpr hcon.1) hcon.2] at hm
      exact absurd hm (by simp)
    · intro h
      by_cases hsup : supportedLosses.contains lt = true
      · have hoptne : opt ≠ "Adam" := by
          rcases h with ⟨ha, hb⟩ | hopt
          · exact absurd (List.elem_iff.mp hsup)
              (by simp [supportedLosses, ha, hb])
          · exact hopt
        have hc2 : supportedOptimizers.contains opt = false := by
          cases hc : supportedOptimizers.contains opt
          · rfl
          · exact absurd (List.elem_iff.mp hc)
              (by simp [supportedOptimizers, hoptne])
        refine ⟨none, ?_⟩
        unfold initTrainer
        rw [pyAssert_true hsup, ok_bind, pyAssert_false hc2, error_bind]
      · have hc1 : supportedLosses.contains lt = false := by
          cases hc : supportedLosses.contains lt
          · rfl
          · exact absurd hc hsup
        refine ⟨none, ?_⟩
        unfold initTrainer
        rw [pyAssert_false hc1, error_bind]
  · intro hlt hopt
    exact ⟨_, initTrainer_of_supported T O g ss lt opt am hlt hopt⟩

/-- C9: once `graphCreated` is `True`, every further call returns the same
cached `(lossOp, trainOp)` pair and performs no validation at all — the
equation holds for arbitrary `predicted`, `target` and `lossIndicator`,
including ones that would fail the shape checks. -/
theorem call_after_created_cached (t : Trainer) (L Tr : TFNode) (s : TFState)
    (pred tgt : TFTensor) (li : NDArray)
    (hgc : t.graphCreated = true) (hLoss : t.lossOp = some L)
    (hTrain : t.trainOp = some Tr) :
    callTrainer s t pred tgt li = (s, t, .ok (some L, some Tr)) := by
  unfold callTrainer
  rw [if_pos hgc, if_neg (by simp [hLoss]), if_neg (by simp [hTrain]),
      hLoss, hTrain]

/-- Witness for C9: the cached pair is returned even on inputs that would
fail every validation check. -/
theorem call_after_created_cached_witness :
    cachedTrainer.graphCreated = true ∧
    cachedTrainer.lossOp = some (.atom samplePred) ∧
    cachedTrainer.trainOp = some (.atom sampleTgt) ∧
    callTrainer emptyState cachedTrainer badPred3 cexTgt zeroColLI =
      (emptyState, cachedTrainer,
       .ok (some (.atom samplePred), some (.atom sampleTgt))) :=
  ⟨rfl, rfl, rfl,
   call_after_created_cached cachedTrainer (.atom samplePred) (.atom sampleTgt)
     emptyState badPred3 cexTgt zeroColLI rfl rfl rfl⟩

/-- C8: for a trainer constructed with a non-`None` graph, a first call whose
inputs pass validation does not return the handles: after validation
succeeds (setting the valid-init flag) it invokes the undefined
`_restoreGraph` method and so raises `AttributeError`. -/
theorem call_restore_attribute_error (T O : Nat) (ss : Rat) (lt opt : String)
    (am : Bool) (gr : Unit) (t : Trainer) (s : TFState) (pred tgt : TFTensor)
    (li : NDArray)
    (hinit : initTrainer T O (some gr) ss lt opt am = .ok t)
    (hv : validateChecks t pred.shape tgt.shape li = .ok ()) :
    callTrainer s t pred tgt li =
      (s, { t with validInit := true },
       .error (.attributeError "_restoreGraph")) := by
  obtain ⟨-, -, ht⟩ := initTrainer_ok hinit
  have hgc : t.graphCreated = false := by rw [ht]
  have hg : t.graph = some gr := by rw [ht]
  unfold callTrainer
  rw [if_neg (by simp [hgc]), validateInit_ok hv]
  simp [hg]

/-- Witness for C8 at concrete inputs. -/
theorem call_restore_attribute_error_witness :
    initTrainer 2 2 (some ()) 1 "l2" "Adam" true = .ok restoreTrainer ∧
    validateChecks restoreTrainer samplePred.shape sampleTgt.shape sampleLI =
      .ok () ∧
    callTrainer emptyState restoreTrainer samplePred sampleTgt sampleLI =
      (emptyState, { restoreTrainer with validInit := true },
       .error (.attributeError "_restoreGraph")) :=
  ⟨by decide, by decide,
   call_restore_attribute_error 2 2 1 "l2" "Adam" true () restoreTrainer
     emptyState samplePred sampleTgt sampleLI (by decide) (by decide)⟩

/-- C10: a first call that fails validation with an `AssertionError` leaves
the trainer object and the collection state exactly as they were (in
particular `graphCreated`, `lossOp`, `trainOp` and the valid-init flag are
unchanged), and a later call on the same trainer with corrected inputs still
performs full validation and graph creation. -/
theorem validation_failure_atomic (t : Trainer) (s : TFState)
    (pred tgt : TFTensor) (li : NDArray) (m : Option String)
    (hgc : t.graphCreated = false)
    (hv : validateChecks t pred.shape tgt.shape li =
      .error (.assertionError m)) :
    callTrainer s t pred tgt li = (s, t, .error (.assertionError m)) ∧
    (∀ (pred2 tgt2 : TFTensor) (li2 : NDArray),
      t.graph = none → (t.lossType = "xentropy" ∨ t.lossType = "l2") →
      validateChecks t pred2.shape tgt2.shape li2 = .ok () →
      ∃ s1 t1 lossNode trainNode,
        callTrainer s t pred2 tgt2 li2 =
          (s1, t1, .ok (some lossNode, some trainNode)) ∧
        t1.graphCreated = true) := by
  refine ⟨callTrainer_validation_error hgc hv, ?_⟩
  intro pred2 tgt2 li2 hg hl hv2
  obtain ⟨idx, hidx⟩ := indicatorChecks_ok_find (validateChecks_ok_parts hv2).2
  exact ⟨_, _, firstLossNode t pred2 tgt2 li2 idx,
    .adamMinimize t.stepSize (firstLossNode t pred2 tgt2 li2 idx),
    callTrainer_first_ok hgc hg hv2 hidx hl, rfl⟩

/-- Witness for C10: a 3-dimensional prediction tensor fails validation and
leaves the trainer untouched; the same trainer then succeeds on good
inputs. -/
theorem validation_failure_atomic_witness :
    sampleTrainer.graphCreated = false ∧
    validateChecks sampleTrainer badPred3.shape sampleTgt.shape sampleLI =
      .error (.assertionError (some msgDim)) ∧
    (callTrainer emptyState sampleTrainer badPred3 sampleTgt sampleLI =
      (emptyState, sampleTrainer, .error (.assertionError (some msgDim))) ∧
    (∀ (pred2 tgt2 : TFTensor) (li2 : NDArray),
      sampleTrainer.graph = none →
      (sampleTrainer.lossType = "xentropy" ∨ sampleTrainer.lossType = "l2") →
      validateChecks sampleTrainer pred2.shape tgt2.shape li2 = .ok () →
      ∃ s1 t1 lossNode trainNode,
        callTrainer emptyState sampleTrainer pred2 tgt2 li2 =
          (s1, t1, .ok (some lossNode, some trainNode)) ∧
        t1.graphCreated = true)) :=
  ⟨by decide, by decide,
   validation_failure_atomic sampleTrainer emptyState badPred3 sampleTgt
     sampleLI (some msgDim) (by decide) (by decide)⟩

/-- C5: `trainModel` executes the train step batch by batch — through the
echo callback (which also evaluates the loss) on batch counters that are
multiples of `echoInterval`, through a plain train-step run otherwise —
incrementing the batch counter once per successful step; it returns normally
exactly when a run raises `OutOfRangeError` (caught, never propagated),
while any other exception propagates uncaught, and without an
`OutOfRangeError` the loop never returns. -/
theorem trainModel_loop_spec (eI : Nat) (pre rest : List RunResult)
    (e : String) (heI : 0 < eI) (hpre : ∀ r ∈ pre, r = .runOk) :
    trainModel (pre ++ .outOfRange :: rest) eI =
      .finished pre.length (expectedEvents eI pre.length) ∧
    trainModel (pre ++ .raiseOther e :: rest) eI =
      .raised e pre.length (expectedEvents eI pre.length) ∧
    trainModel pre eI =
      .noMoreResults pre.length (expectedEvents eI pre.length) := by
  have hne : ¬ eI = 0 := by omega
  have haux := trainModelAux_ok_run eI hne pre hpre
  refine ⟨?_, ?_, ?_⟩
  · show trainModelAux eI (pre ++ (RunResult.outOfRange :: rest)) 0 [] = _
    rw [haux]
    simp only [trainModelAux, if_neg hne, List.append_nil,
               List.reverse_reverse, Nat.zero_add, expectedEvents_eq_evRange]
  · show trainModelAux eI (pre ++ (RunResult.raiseOther e :: rest)) 0 [] = _
    rw [haux]
    simp only [trainModelAux, if_neg hne, List.append_nil,
               List.reverse_reverse, Nat.zero_add, expectedEvents_eq_evRange]
  · show trainModelAux eI pre 0 [] = _
    have h0 : trainModelAux eI pre 0 [] = trainModelAux eI (pre ++ []) 0 [] := by
      rw [List.append_nil]
    rw [h0, haux]
    simp only [trainModelAux, if_neg hne, List.append_nil,
               List.reverse_reverse, Nat.zero_add, expectedEvents_eq_evRange]

/-- Witness for C5: three successful batches (echo at 0 and 2, plain at 1),
then each kind of termination. -/
theorem trainModel_loop_spec_witness :
    0 < 2 ∧ (∀ r ∈ ([.runOk, .runOk, .runOk] : List RunResult), r = .runOk) ∧
    (trainModel ([.runOk, .runOk, .runOk] ++ .outOfRange :: [.runOk]) 2 =
       .finished 3 (expectedEvents 2 3) ∧
     trainModel ([.runOk, .runOk, .runOk] ++ .raiseOther "ValueError" ::
       [.runOk]) 2 = .raised "ValueError" 3 (expectedEvents 2 3) ∧
     trainModel [.runOk, .runOk, .runOk] 2 =
       .noMoreResults 3 (expectedEvents 2 3)) :=
  ⟨by decide, by decide,
   trainModel_loop_spec 2 [.runOk, .runOk, .runOk] [.runOk] "ValueError"
     (by decide) (by decide)⟩

/-- C6: the loss handle returned by a valid first call with `graph=None` is,
for `lossType='l2'`, the L2 loss of the elementwise product of the
`lossIndicator` mask with the difference of the reshaped predictions and the
target tiled across all time steps; for `lossType='xentropy'`, the mean
softmax cross-entropy over the timesteps from the indicator start index on;
and the train handle is an Adam minimization step of that loss with learning
rate `stepSize`. -/
theorem first_call_loss_structure (T O : Nat) (ss : Rat) (lt opt : String)
    (am : Bool) (t : Trainer) (s : TFState) (pred tgt : TFTensor)
    (li : NDArray) (idx : Int)
    (hinit : initTrainer T O none ss lt opt am = .ok t)
    (hv : validateChecks t pred.shape tgt.shape li = .ok ())
    (hidx : findIndicatorStart li = .ok idx) :
    ∃ s1 t1 lossNode,
      callTrainer s t pred tgt li =
        (s1, t1, .ok (some lossNode, some (.adamMinimize ss lossNode))) ∧
      (lt = "l2" → lossNode = l2LossNode t (.atom pred) (.atom tgt) li) ∧
      (lt = "xentropy" →
        lossNode = xentropyLossNode t (.atom pred) (.atom tgt) idx) := by
  obtain ⟨hlt, -, ht⟩ := initTrainer_ok hinit
  have hgc : t.graphCreated = false := by rw [ht]
  have hg : t.graph = none := by rw [ht]
  have hl : t.lossType = "xentropy" ∨ t.lossType = "l2" := by rw [ht]; exact hlt
  have hss : t.stepSize = ss := by rw [ht]
  have hltEq : t.lossType = lt := by rw [ht]
  have hcall := callTrainer_first_ok (s := s) hgc hg hv hidx hl
  rw [hss] at hcall
  exact ⟨_, _, firstLossNode t pred tgt li idx, hcall,
    fun hx => by unfold firstLossNode; rw [hltEq, hx]; simp,
    fun hx => by unfold firstLossNode; rw [hltEq, hx]; simp⟩

/-- Witness for C6: the sample l2 trainer; the indicator start is row 1. -/
theorem first_call_loss_structure_witness :
    initTrainer 2 2 none 1 "l2" "Adam" true = .ok sampleTrainer ∧
    validateChecks sampleTrainer samplePred.shape sampleTgt.shape sampleLI =
      .ok () ∧
    findIndicatorStart sampleLI = .ok 1 ∧
    (∃ s1 t1 lossNode,
      callTrainer emptyState sampleTrainer samplePred sampleTgt sampleLI =
        (s1, t1, .ok (some lossNode, some (.adamMinimize 1 lossNode))) ∧
      ("l2" = "l2" →
        lossNode = l2LossNode sampleTrainer (.atom samplePred)
          (.atom sampleTgt) sampleLI) ∧
      ("l2" = "xentropy" →
        lossNode = xentropyLossNode sampleTrainer (.atom samplePred)
          (.atom sampleTgt) 1)) :=
  ⟨by decide, by decide, by decide,
   first_call_loss_structure 2 2 1 "l2" "Adam" true sampleTrainer emptyState
     samplePred sampleTgt sampleLI 1 (by decide) (by decide) (by decide)⟩

/-- C7: during a valid first call with `graph=None` the collections
`EMI-train-op` and `EMI-loss-op` receive the newly created train and loss
handles exactly when `automode` is on; with `automode` off the collection
state is untouched, and an explicit `createOpCollections` call is what
appends those two entries. -/
theorem op_collections_automode (T O : Nat) (ss : Rat) (lt opt : String)
    (am : Bool) (t : Trainer) (s : TFState) (pred tgt : TFTensor)
    (li : NDArray)
    (hinit : initTrainer T O none ss lt opt am = .ok t)
    (hv : validateChecks t pred.shape tgt.shape li = .ok ()) :
    ∃ s1 t1 lossNode trainNode,
      callTrainer s t pred tgt li =
        (s1, t1, .ok (some lossNode, some trainNode)) ∧
      (am = true → s1.collections = s.collections ++
        [("EMI-train-op", some trainNode), ("EMI-loss-op", some lossNode)]) ∧
      (am = false → s1 = s) ∧
      (createOpCollections s1 t1).collections = s1.collections ++
        [("EMI-train-op", some trainNode), ("EMI-loss-op", some lossNode)] := by
  obtain ⟨hlt, -, ht⟩ := initTrainer_ok hinit
  have hgc : t.graphCreated = false := by rw [ht]
  have hg : t.graph = none := by rw [ht]
  have hl : t.lossType = "xentropy" ∨ t.lossType = "l2" := by rw [ht]; exact hlt
  have ham : t.automode = am := by rw [ht]
  obtain ⟨idx, hidx⟩ := indicatorChecks_ok_find (validateChecks_ok_parts hv).2
  refine ⟨_, _, firstLossNode t pred tgt li idx,
    .adamMinimize t.stepSize (firstLossNode t pred tgt li idx),
    callTrainer_first_ok hgc hg hv hidx hl, ?_, ?_, ?_⟩
  · intro hx; simp [ham, hx]
  · intro hx; simp [ham, hx]
  · rfl

/-- Witness for C7 at concrete inputs with `automode` on. -/
theorem op_collections_automode_witness :
    initTrainer 2 2 none 1 "l2" "Adam" true = .ok sampleTrainer ∧
    validateChecks sampleTrainer samplePred.shape sampleTgt.shape sampleLI =
      .ok () ∧
    (∃ s1 t1 lossNode trainNode,
      callTrainer emptyState sampleTrainer samplePred sampleTgt sampleLI =
        (s1, t1, .ok (some lossNode, some trainNode)) ∧
      (true = true → s1.collections = emptyState.collections ++
        [("EMI-train-op", some trainNode), ("EMI-loss-op", some lossNode)]) ∧
      (true = false → s1 = emptyState) ∧
      (createOpCollections s1 t1).collections = s1.collections ++
        [("EMI-train-op", some trainNode), ("EMI-loss-op", some lossNode)]) :=
  ⟨by decide, by decide,
   op_collections_automode 2 2 1 "l2" "Adam" true sampleTrainer emptyState
     samplePred sampleTgt sampleLI (by decide) (by decide)⟩

/-- C2 counterexample: the claim promises an `AssertionError` whenever the
target does not have exactly 3 dimensions, but with a 1-dimensional target
(and predicted-tensor checks passing) the comparison
`predicted.shape[1] == target.shape[1]` reads `target.shape[1]` first and
raises `IndexError` instead. -/
theorem shape_assert_counterexample :
    cexTgt.shape.length ≠ 3 ∧
    cexTrainer.graphCreated = false ∧
    callTrainer emptyState cexTrainer cexPred cexTgt sampleLI =
      (emptyState, cexTrainer, .error .indexError) ∧
    isAssertionError
      (callTrainer emptyState cexTrainer cexPred cexTgt sampleLI).2.2 =
      false :=
  ⟨by decide, by decide, by decide, by decide⟩

/-- C2 amended: for a trainer whose graph has not been created, a call with
any of the six claimed shape violations raises an `AssertionError`
immediately, with the trainer and collection state untouched, provided the
target has at least 2 dimensions or one of the predicted-tensor checks
already fails; a shorter target otherwise raises `IndexError`. -/
theorem shape_assert_amended (t : Trainer) (s : TFState) (pred tgt : TFTensor)
    (li : NDArray)
    (hgc : t.graphCreated = false)
    (hviol : pred.shape.length ≠ 4 ∨ pred.shape.getD 3 0 ≠ t.numOutput ∨
             pred.shape.getD 2 0 ≠ t.numTimeSteps ∨
             pred.shape.getD 1 0 ≠ tgt.shape.getD 1 0 ∨
             tgt.shape.length ≠ 3 ∨ tgt.shape.getD 2 0 ≠ t.numOutput)
    (hguard : 2 ≤ tgt.shape.length ∨ pred.shape.length ≠ 4 ∨
              pred.shape.getD 3 0 ≠ t.numOutput ∨
              pred.shape.getD 2 0 ≠ t.numTimeSteps) :
    ∃ m, callTrainer s t pred tgt li = (s, t, .error (.assertionError m)) := by
  obtain ⟨m, hm⟩ :=
    shapeChecks_error_of_violation t pred.shape tgt.shape hviol hguard
  exact ⟨m, callTrainer_validation_error hgc (validateChecks_of_shape_error hm)⟩

/-- Witness for the amended C2: last dimension 5 instead of 2. -/
theorem shape_assert_amended_witness :
    sampleTrainer.graphCreated = false ∧
    badPred.shape.getD 3 0 ≠ sampleTrainer.numOutput ∧
    2 ≤ sampleTgt.shape.length ∧
    (∃ m, callTrainer emptyState sampleTrainer badPred sampleTgt sampleLI =
      (emptyState, sampleTrainer, .error (.assertionError m))) :=
  ⟨by decide, by decide, by decide,
   shape_assert_amended sampleTrainer emptyState badPred sampleTgt sampleLI
     (by decide) (Or.inr (Or.inl (by decide))) (Or.inl (by decide))⟩

/-- C3 counterexample: the claim promises
`AssertionError('Invalid lossIndicator passed')` whenever the acceptance
condition fails, but a rectangular 2-d indicator with one row and zero
columns makes `lossIndicator[0, 0]` raise `IndexError` inside
`__findIndicatorStart` instead. -/
theorem indicator_assert_counterexample :
    zeroColLI.rect ∧ zeroColLI.ndim = 2 ∧
    shapeChecks cexTrainer cexPred2.shape cexTgt2.shape = .ok () ∧
    ¬ claimIndicatorOK cexTrainer.numOutput zeroColLI ∧
    callTrainer emptyState cexTrainer cexPred2 cexTgt2 zeroColLI =
      (emptyState, cexTrainer, .error .indexError) ∧
    isAssertionError
      (callTrainer emptyState cexTrainer cexPred2 cexTgt2 zeroColLI).2.2 =
      false :=
  ⟨by decide, by decide, by decide, by decide, by decide, by decide⟩

/-- C3 amended: with the graph not yet created, shape checks passing, and a
rectangular indicator, the first call accepts `lossIndicator` iff it is
2-dimensional, has a least row index `idx` whose column 0 holds 1, the rows
before `idx` sum to 0 and the rows from `idx` on sum to
`(rows - idx) * numOutput`; otherwise it raises
`AssertionError('Invalid lossIndicator passed')` — except for a 2-d
indicator with rows but zero columns, which raises `IndexError`. -/
theorem indicator_acceptance_amended (t : Trainer) (s : TFState)
    (pred tgt : TFTensor) (li : NDArray)
    (hgc : t.graphCreated = false) (hrect : li.rect)
    (hshape : shapeChecks t pred.shape tgt.shape = .ok ()) :
    (validateChecks t pred.shape tgt.shape li = .ok () ↔
      claimIndicatorOK t.numOutput li) ∧
    (¬ claimIndicatorOK t.numOutput li →
      ((li.ndim = 2 ∧ li.data ≠ [] ∧ li.data.headD [] = []) →
        callTrainer s t pred tgt li = (s, t, .error .indexError)) ∧
      (¬ (li.ndim = 2 ∧ li.data ≠ [] ∧ li.data.headD [] = []) →
        callTrainer s t pred tgt li =
          (s, t, .error (.assertionError (some msgInd))))) := by
  obtain ⟨hiff, herr⟩ := indicatorChecks_spec t li hrect
  constructor
  · rw [validateChecks_of_shape_ok hshape]; exact hiff
  · intro hnp
    obtain ⟨h1, h2⟩ := herr hnp
    exact ⟨fun hz => callTrainer_validation_error hgc
             (by rw [validateChecks_of_shape_ok hshape]; exact h1 hz),
           fun hz => callTrainer_validation_error hgc
             (by rw [validateChecks_of_shape_ok hshape]; exact h2 hz)⟩

/-- Witness for the amended C3 at a concrete accepted indicator. -/
theorem indicator_acceptance_amended_witness :
    sampleTrainer.graphCreated = false ∧ sampleLI.rect ∧
    shapeChecks sampleTrainer samplePred.shape sampleTgt.shape = .ok () ∧
    ((validateChecks sampleTrainer samplePred.shape sampleTgt.shape sampleLI =
        .ok () ↔ claimIndicatorOK sampleTrainer.numOutput sampleLI) ∧
     (¬ claimIndicatorOK sampleTrainer.numOutput sampleLI →
       ((sampleLI.ndim = 2 ∧ sampleLI.data ≠ [] ∧ sampleLI.data.headD [] = []) →
         callTrainer emptyState sampleTrainer samplePred sampleTgt sampleLI =
           (emptyState, sampleTrainer, .error .indexError)) ∧
       (¬ (sampleLI.ndim = 2 ∧ sampleLI.data ≠ [] ∧
           sampleLI.data.headD [] = []) →
         callTrainer emptyState sampleTrainer samplePred sampleTgt sampleLI =
           (emptyState, sampleTrainer,
            .error (.assertionError (some msgInd)))))) :=
  ⟨by decide, by decide, by decide,
   indicator_acceptance_amended sampleTrainer emptyState samplePred sampleTgt
     sampleLI (by decide) (by decide) (by decide)⟩

end EMIRNN
